import Mathlib

/-!
Shallow embedding of the GPS broadcast-ephemeris routines of this repository
(`src/gpsnav.cpp`, `src/navrnx.hpp`, class `ngpt::NavDataFrame`), together
with theorems settling the frozen claims about them.

Modelling conventions:
* C++ `double` arithmetic is embedded as exact arithmetic in a linear ordered
  field `α`; the claims under study are about control flow and exact algebra,
  not about rounding.  The libm transcendentals (`std::sin`, `std::cos`,
  `std::sqrt`, `std::atan2`, `std::acos`) are gathered in a record `Ops α` of
  function parameters; the real-number instance `realOps` interprets them by
  the Mathlib functions (`Real.sin`, …, with `atan2 y x = Complex.arg ⟨x, y⟩`).
* out-parameters (`double* state`, `double* Ek`, `double& dt_sv`) are embedded
  in in/out style: the function receives the values held at the output
  locations before the call and returns the values held afterwards.  A
  possibly-null pointer is an `Option`: `none` is a null pointer, `some v` a
  pointer to a cell currently holding `v`.
* the `int` status result of each routine is the first component of the
  returned tuple.
-/

namespace GpsNav

variable {α : Type} [LinearOrderedField α]

/-- Interpretation of the libm calls appearing in `gpsnav.cpp`.
`atan2 y x` takes the arguments in the C order `std::atan2(y, x)`. -/
structure Ops (α : Type) where
  sin : α → α
  cos : α → α
  sqrt : α → α
  atan2 : α → α → α
  acos : α → α

/-- The navigation record (`ngpt::NavDataFrame`, `navrnx.hpp`): the block of
31 position-dependent numeric fields `data__[0..30]`.  The satellite-system
tag, PRN and time-of-clock metadata play no part in the routines under study
and are omitted. -/
structure NavDataFrame (α : Type) where
  data__ : Fin 31 → α

/-- Record with one field replaced (used to state that a routine does not
read a given field, e.g. the TGD slot `data__[25]`). -/
def NavDataFrame.setData (fr : NavDataFrame α) (j : Fin 31) (v : α) :
    NavDataFrame α :=
  ⟨Function.update fr.data__ j v⟩

/-- Tolerance `LIMIT = 1e-14` for the Kepler iteration (`gpsnav.cpp`). -/
def LIMIT : α := 1 / 10 ^ 14

/-- WGS 84 gravitational constant `mi_gps = 3.986005e14` (`gpsnav.cpp`). -/
def mi_gps : α := 398600500000000

/-- WGS 84 Earth rotation rate `OMEGAE_dot = 7.2921151467e-5` (`gpsnav.cpp`). -/
def OMEGAE_dot : α := 72921151467 / 10 ^ 15

/-- Seconds in a GPS week, `SEC_IN_WEEK = 604800` (`gpsnav.cpp`). -/
def SEC_IN_WEEK : α := 604800

/-- Clock-relativity constant `F_CLOCK = -4.442807633e-10` (`gpsnav.cpp`). -/
def F_CLOCK : α := -(4442807633 / 10 ^ 19)

/-- Iterate sequence of the Kepler fixed-point loop of `gps_ecef` /
`gps_dtsv`: `E_0 = Mk` (the seed `double E(Mk)`), and each executed loop body
performs `E = std::sin(Ek)*e + Mk` after `Ek = E`, i.e.
`E_{n+1} = sin(E_n)*e + Mk`. -/
def kseq (sinf : α → α) (M e : α) : ℕ → α
  | 0 => M
  | n + 1 => sinf (kseq sinf M e n) * e + M

/-- Value held by the loop variable `Ek` when the loop condition is tested
for the `k`-th time: the dummy initial value `0` at the first test
(`double Ek(0e0)`), and the previous iterate afterwards. -/
def kprev (sinf : α → α) (M e : α) : ℕ → α
  | 0 => 0
  | n + 1 => kseq sinf M e n

/-- The `k`-th loop-condition test succeeds in stopping the loop:
`|E - Ek| ≤ LIMIT` with the values held at that test. -/
def kchk (sinf : α → α) (M e : α) (k : ℕ) : Prop :=
  |kseq sinf M e k - kprev sinf M e k| ≤ LIMIT

instance (sinf : α → α) (M e : α) (k : ℕ) : Decidable (kchk sinf M e k) :=
  inferInstanceAs (Decidable (_ ≤ _))

/-- The `for` loop of the Kepler solver
(`for (i=0; std::abs(E-Ek)>LIMIT && i<1001; i++) { Ek = E; E = sin(Ek)*e+Mk; }`)
as a fuelled recursion on the state `(E, Ek, i)`; the fuel only bounds the
recursion and is chosen large enough (`1002`) never to run out.  Returns the
values of `(i, E)` when the loop exits. -/
def kloopAux (sinf : α → α) (M e : α) : ℕ → α → α → ℕ → ℕ × α
  | 0, E, _, i => (i, E)
  | f + 1, E, Ek, i =>
      if |E - Ek| > LIMIT ∧ i < 1001 then
        kloopAux sinf M e f (sinf E * e + M) E (i + 1)
      else (i, E)

/-- The Kepler loop entered with `E = Mk`, `Ek = 0`, `i = 0`. -/
def kloop (sinf : α → α) (M e : α) : ℕ × α :=
  kloopAux sinf M e 1002 M 0 0

/-- Semi-major axis `A = data__[10]*data__[10]` (`gpsnav.cpp`). -/
def gps_A (fr : NavDataFrame α) : α := fr.data__ 10 * fr.data__ 10

/-- Corrected mean motion `n = sqrt(mi_gps/(A*A*A)) + data__[5]`
(`gpsnav.cpp`, `n0` and `n`). -/
def gps_n (ops : Ops α) (fr : NavDataFrame α) : α :=
  ops.sqrt (mi_gps / (gps_A fr * gps_A fr * gps_A fr)) + fr.data__ 5

/-- Elapsed time `tk = t_sec - toe_sec` as computed by `gps_ecef`; in the
release build no week wraparound is applied to it. -/
def gps_tk (toe_sec t_sec : α) : α := t_sec - toe_sec

/-- Mean anomaly `Mk = data__[6] + n*tk` from an elapsed time `tk`
(`gpsnav.cpp`, used by both `gps_ecef` and `gps_dtsv`). -/
def gps_Mk0 (ops : Ops α) (fr : NavDataFrame α) (tk : α) : α :=
  fr.data__ 6 + gps_n ops fr * tk

/-- Mean anomaly used by `gps_ecef` at epoch `t_sec` with reference
`toe_sec`. -/
def gps_Mk (ops : Ops α) (fr : NavDataFrame α) (toe_sec t_sec : α) : α :=
  gps_Mk0 ops fr (gps_tk toe_sec t_sec)

/-- True anomaly `vk = atan2(sqrt(1-e*e)*sin(E)/(1-e*cos(E)),
(cos(E)-e)/(1-e*cos(E)))` (`gpsnav.cpp` lines 108-113). -/
def gps_vk (ops : Ops α) (e E : α) : α :=
  ops.atan2 ((ops.sqrt (1 - e * e) * ops.sin E) / (1 - e * ops.cos E))
    ((ops.cos E - e) / (1 - e * ops.cos E))

/-- Recomputed eccentric anomaly `Ek = acos((e+cos(vk))/(1+e*cos(vk)))`
(`gpsnav.cpp` line 115). -/
def gps_EkRe (ops : Ops α) (e vk : α) : α :=
  ops.acos ((e + ops.cos vk) / (1 + e * ops.cos vk))

/-- Body of `NavDataFrame::gps_ecef` after the elapsed time `tk` has been
formed (the release build uses `tk` as computed; the debug build applies its
checks first, see `gps_ecef_debug`).  In/out data: `state` holds the three
cells of the state array of the caller before the call, `ekp` the optional
`Ek` output cell.  Returns the status and the new contents of both. -/
def gps_ecef_core (ops : Ops α) (fr : NavDataFrame α) (tk : α)
    (state : Fin 3 → α) (ekp : Option α) : ℤ × (Fin 3 → α) × Option α :=
  let A := gps_A fr
  let Mk := gps_Mk0 ops fr tk
  let e := fr.data__ 8
  let r := kloop ops.sin Mk e
  if 1000 ≤ r.1 then (1, state, ekp)
  else
    let Ek := r.2
    let ekp2 := ekp.map fun _ => Ek
    let vk := gps_vk ops e Ek
    let Ek2 := gps_EkRe ops e vk
    let Fk := vk + fr.data__ 17
    let sin2F := ops.sin (2 * Fk)
    let cos2F := ops.cos (2 * Fk)
    let duk := fr.data__ 9 * sin2F + fr.data__ 7 * cos2F
    let drk := fr.data__ 4 * sin2F + fr.data__ 16 * cos2F
    let dik := fr.data__ 14 * sin2F + fr.data__ 12 * cos2F
    let uk := Fk + duk
    let rk := A * (1 - e * ops.cos Ek2) + drk
    let ik := fr.data__ 15 + dik + fr.data__ 19 * tk
    let xk := rk * ops.cos uk
    let yk := rk * ops.sin uk
    let omega_k := fr.data__ 13 + (fr.data__ 18 - OMEGAE_dot) * tk
      - OMEGAE_dot * fr.data__ 11
    let sinOk := ops.sin omega_k
    let cosOk := ops.cos omega_k
    let cosik := ops.cos ik
    (0,
      fun j =>
        if j.1 = 0 then xk * cosOk - yk * sinOk * cosik
        else if j.1 = 1 then xk * sinOk + yk * cosOk * cosik
        else yk * ops.sin ik,
      ekp2)

/-- Function `NavDataFrame::gps_ecef` as compiled without `DEBUG`: the `#ifdef DEBUG`
block (range check and week wraparound on `tk`) is absent, so the raw
`tk = t_sec - toe_sec` is fed to the formulae. -/
def gps_ecef (ops : Ops α) (fr : NavDataFrame α) (toe_sec t_sec : α)
    (state : Fin 3 → α) (ekp : Option α) : ℤ × (Fin 3 → α) × Option α :=
  gps_ecef_core ops fr (gps_tk toe_sec t_sec) state ekp

/-- Function `NavDataFrame::gps_ecef` as compiled with `DEBUG`: if `tk` falls outside
`[-302400, 302400]` the routine returns `-1` at once; the two wraparound
statements that follow are transcribed although the preceding early return
makes them unreachable. -/
def gps_ecef_debug (ops : Ops α) (fr : NavDataFrame α) (toe_sec t_sec : α)
    (state : Fin 3 → α) (ekp : Option α) : ℤ × (Fin 3 → α) × Option α :=
  let tk := gps_tk toe_sec t_sec
  if tk < -302400 ∨ 302400 < tk then (-1, state, ekp)
  else
    let tk2 := if 302400 < tk then tk - 604800 else tk
    let tk3 := if tk2 < -302400 then tk2 + 604800 else tk2
    gps_ecef_core ops fr tk3 state ekp

/-- The week wraparound applied to `dt` at the head of
`NavDataFrame::gps_dtsv`:
`if (dt > 302400) dt -= 604800; if (dt < -302400) dt += 604800;`. -/
def dtwrap (dt : α) : α :=
  let d1 := if 302400 < dt then dt - 604800 else dt
  if d1 < -302400 then d1 + 604800 else d1

/-- Clock bias assembled by `gps_dtsv` (lines 204-210): polynomial part
`data__[0] + data__[1]*dt + (data__[2]*dt)*dt` plus relativistic part
`F_CLOCK*(data__[8]*data__[10]*sin(Ek))`, with `dt` already wrapped. -/
def gps_bias (ops : Ops α) (fr : NavDataFrame α) (dt Ek : α) : α :=
  let Dtr := F_CLOCK * (fr.data__ 8 * fr.data__ 10 * ops.sin Ek)
  let Dtsv := fr.data__ 0 + fr.data__ 1 * dt + (fr.data__ 2 * dt) * dt
  Dtsv + Dtr

/-- Function `NavDataFrame::gps_dtsv`.  In/out data: `dtsv0` is the value held by the
`dt_sv` variable of the caller before the call; `ein` models the optional `Ein`
pointer.  Returns `(status, dt_sv)`. -/
def gps_dtsv (ops : Ops α) (fr : NavDataFrame α) (dt : α) (dtsv0 : α)
    (ein : Option α) : ℤ × α :=
  let dt2 := dtwrap dt
  match ein with
  | none =>
      let Mk := gps_Mk0 ops fr dt2
      let r := kloop ops.sin Mk (fr.data__ 8)
      if 1000 ≤ r.1 then (1, dtsv0) else (0, gps_bias ops fr dt2 r.2)
  | some e0 => (0, gps_bias ops fr dt2 e0)

/-- Calendar date in the external `ggdatetime` representation, reduced to the
two observations `gps_stateNclock` makes of it.  Modelled from the spec: the
external EpochTime type (not among the sources of this repository) is "a time
value with week/seconds-of-week decomposition"; the template code reads only
a day number (`.mjd()`) and the seconds of day (`.sec().to_fractional_seconds()`). -/
structure Dt (α : Type) where
  mjd : ℤ
  sod : α

/-- Day alignment of the seconds of the epoch against the reference date
(`navrnx.hpp` lines 103-107): add or subtract a day when the two dates fall
on different days. -/
def gps_align (toe t : Dt α) : α :=
  if toe.mjd < t.mjd then t.sod + 86400
  else if t.mjd < toe.mjd then t.sod - 86400
  else t.sod

/-- Function `NavDataFrame::gps_stateNclock` (`navrnx.hpp` lines 92-114).  The two
quantities produced by the external `ggdatetime` library are taken as inputs:
`toe` stands for `gps__toe2date()` (built from `data__[21]`, `data__[11]` by
the external calendar constructor) and `dti` for
`delta_sec(t, toc__).to_fractional_seconds()`.  The day-alignment of `t_sec`
against `toe`, and all calls and early returns, follow the source. -/
def gps_stateNclock (ops : Ops α) (fr : NavDataFrame α) (toe t : Dt α)
    (dti : α) (state : Fin 3 → α) (dt0 : α) : ℤ × (Fin 3 → α) × α :=
  let toe_sec := toe.sod
  let t_sec := gps_align toe t
  let r := gps_ecef ops fr toe_sec t_sec state none
  if r.1 ≠ 0 then (r.1, r.2.1, dt0)
  else
    let r2 := gps_dtsv ops fr dti dt0 none
    (r2.1, r.2.1, r2.2)

/-- The Kepler solver as the specification describes it, for the refinement
claim: "fixed-point iteration seeded at `E₀ = M`; each step computes
`Eᵢ₊₁ = M + e·sin(Eᵢ)`; terminates when `|Eᵢ₊₁ − Eᵢ| ≤ 1e-14` or after 1000
iterations", returning the last computed iterate on success and signalling
non-convergence (`none`) when the cap is reached. -/
def specKeplerAux (sinf : α → α) (M e : α) : ℕ → α → Option α
  | 0, _ => none
  | f + 1, E =>
      let E2 := M + e * sinf E
      if |E2 - E| ≤ LIMIT then some E2 else specKeplerAux sinf M e f E2

/-- The specification solver started at the seed with its 1000-iteration
budget. -/
def specKepler (sinf : α → α) (M e : α) : Option α :=
  specKeplerAux sinf M e 1000 M

/-- Interpretation of the libm functions over the real numbers. -/
noncomputable def realOps : Ops ℝ :=
  { sin := Real.sin
    cos := Real.cos
    sqrt := Real.sqrt
    atan2 := fun y x => Complex.arg ⟨x, y⟩
    acos := Real.arccos }

/-- Degenerate interpretation over `ℚ` (libm calls replaced by computable
stand-ins) used to instantiate theorems quantified over `Ops` at concrete,
decidable inputs. -/
def qOps : Ops ℚ :=
  { sin := id
    cos := id
    sqrt := id
    atan2 := fun _ _ => 0
    acos := id }

/-! Characterization of the Kepler loop: it exits at the first test index
whose stopping check passes (or at index 1001), carrying the corresponding
iterate. -/

theorem kloopAux_spec (sinf : α → α) (M e : α) :
    ∀ f k : ℕ, k + f = 1002 → k ≤ 1001 →
      (∀ j, k ≤ j →
          j < (kloopAux sinf M e f (kseq sinf M e k) (kprev sinf M e k) k).1 →
          ¬ kchk sinf M e j) ∧
      ((kloopAux sinf M e f (kseq sinf M e k) (kprev sinf M e k) k).1 < 1001 →
        kchk sinf M e
          (kloopAux sinf M e f (kseq sinf M e k) (kprev sinf M e k) k).1) ∧
      (kloopAux sinf M e f (kseq sinf M e k) (kprev sinf M e k) k).2 =
        kseq sinf M e
          (kloopAux sinf M e f (kseq sinf M e k) (kprev sinf M e k) k).1 ∧
      k ≤ (kloopAux sinf M e f (kseq sinf M e k) (kprev sinf M e k) k).1 ∧
      (kloopAux sinf M e f (kseq sinf M e k) (kprev sinf M e k) k).1 ≤ 1001 := by
  intro f
  induction f with
  | zero => intro k hk hk' ; omega
  | succ f ih =>
      intro k hk hk'
      by_cases hstop : |kseq sinf M e k - kprev sinf M e k| > LIMIT ∧ k < 1001
      · have hstep :
            kloopAux sinf M e (f + 1) (kseq sinf M e k) (kprev sinf M e k) k =
            kloopAux sinf M e f (kseq sinf M e (k + 1)) (kprev sinf M e (k + 1))
              (k + 1) := by
          rw [kloopAux, if_pos hstop]
          rfl
        have ihk := ih (k + 1) (by omega) (by omega)
        rw [hstep]
        refine ⟨?_, ihk.2.1, ihk.2.2.1, by omega, ihk.2.2.2.2⟩
        intro j hkj hjlt
        rcases Nat.eq_or_lt_of_le hkj with h | h
        · subst h
          intro hc
          exact absurd hc (not_le.mpr hstop.1)
        · exact ihk.1 j h hjlt
      · have hstep :
            kloopAux sinf M e (f + 1) (kseq sinf M e k) (kprev sinf M e k) k =
            (k, kseq sinf M e k) := by
          rw [kloopAux, if_neg hstop]
        rw [hstep]
        refine ⟨fun j hkj hjlt => absurd (lt_of_le_of_lt hkj hjlt) (lt_irrefl k),
          ?_, rfl, le_refl k, hk'⟩
        intro hklt
        rcases not_and_or.mp hstop with h | h
        · exact not_lt.mp h
        · omega

theorem kloop_spec (sinf : α → α) (M e : α) :
    (∀ j, j < (kloop sinf M e).1 → ¬ kchk sinf M e j) ∧
    ((kloop sinf M e).1 < 1001 → kchk sinf M e (kloop sinf M e).1) ∧
    (kloop sinf M e).2 = kseq sinf M e (kloop sinf M e).1 ∧
    (kloop sinf M e).1 ≤ 1001 := by
  have h := kloopAux_spec sinf M e 1002 0 rfl (by omega)
  have h0 : kseq sinf M e 0 = M := rfl
  have h1 : kprev sinf M e 0 = 0 := rfl
  rw [h0, h1] at h
  exact ⟨fun j hj => h.1 j (Nat.zero_le j) hj, h.2.1, h.2.2.1, h.2.2.2.2⟩

/-- The loop stops exactly at the first passing check. -/
theorem kloop_eq_of_first (sinf : α → α) (M e : α) (k : ℕ) (hk : k ≤ 1001)
    (hc : kchk sinf M e k) (hmin : ∀ j, j < k → ¬ kchk sinf M e j) :
    kloop sinf M e = (k, kseq sinf M e k) := by
  obtain ⟨hnone, hstop, hval, hle⟩ := kloop_spec sinf M e
  have hfst : (kloop sinf M e).1 = k := by
    rcases lt_trichotomy (kloop sinf M e).1 k with h | h | h
    · exact absurd (hstop (lt_of_lt_of_le h hk)) (hmin _ h)
    · exact h
    · exact absurd hc (hnone k h)
  have : kloop sinf M e = ((kloop sinf M e).1, (kloop sinf M e).2) := rfl
  rw [this, hfst, hval, hfst]

/-- Non-convergence (`i >= 1000` at loop exit) holds iff no stopping check
among the first 1000 (indices `0..999`) passes. -/
theorem kloop_nonconv_iff (sinf : α → α) (M e : α) :
    1000 ≤ (kloop sinf M e).1 ↔ ∀ k, k < 1000 → ¬ kchk sinf M e k := by
  obtain ⟨hnone, hstop, _, hle⟩ := kloop_spec sinf M e
  constructor
  · intro h k hk
    exact hnone k (lt_of_lt_of_le hk h)
  · intro h
    by_contra hlt
    push_neg at hlt
    exact h _ hlt (hstop (by omega))

/-! Evaluation lemmas for the embedded routines. -/

theorem gps_ecef_core_of_nonconv (ops : Ops α) (fr : NavDataFrame α) (tk : α)
    (state : Fin 3 → α) (ekp : Option α)
    (h : 1000 ≤ (kloop ops.sin (gps_Mk0 ops fr tk) (fr.data__ 8)).1) :
    gps_ecef_core ops fr tk state ekp = (1, state, ekp) := by
  rw [gps_ecef_core]
  simp only [if_pos h]

theorem gps_ecef_core_fst_of_conv (ops : Ops α) (fr : NavDataFrame α) (tk : α)
    (state : Fin 3 → α) (ekp : Option α)
    (h : (kloop ops.sin (gps_Mk0 ops fr tk) (fr.data__ 8)).1 < 1000) :
    (gps_ecef_core ops fr tk state ekp).1 = 0 := by
  rw [gps_ecef_core]
  simp only [if_neg (not_le.mpr h)]

theorem gps_ecef_fst_eq_one_iff (ops : Ops α) (fr : NavDataFrame α)
    (toe_sec t_sec : α) (state : Fin 3 → α) (ekp : Option α) :
    (gps_ecef ops fr toe_sec t_sec state ekp).1 = 1 ↔
      ∀ k, k < 1000 →
        ¬ kchk ops.sin (gps_Mk ops fr toe_sec t_sec) (fr.data__ 8) k := by
  rw [← kloop_nonconv_iff]
  rw [gps_ecef, gps_Mk]
  by_cases h : 1000 ≤ (kloop ops.sin (gps_Mk0 ops fr (gps_tk toe_sec t_sec))
      (fr.data__ 8)).1
  · rw [gps_ecef_core_of_nonconv ops fr _ state ekp h]
    simpa using h
  · rw [gps_ecef_core]
    simp only [if_neg h]
    simpa using h

theorem gps_ecef_fst_cases (ops : Ops α) (fr : NavDataFrame α)
    (toe_sec t_sec : α) (state : Fin 3 → α) (ekp : Option α) :
    (gps_ecef ops fr toe_sec t_sec state ekp).1 = 0 ∨
      (gps_ecef ops fr toe_sec t_sec state ekp).1 = 1 := by
  rw [gps_ecef]
  by_cases h : 1000 ≤ (kloop ops.sin (gps_Mk0 ops fr (gps_tk toe_sec t_sec))
      (fr.data__ 8)).1
  · right
    rw [gps_ecef_core_of_nonconv ops fr _ state ekp h]
  · left
    exact gps_ecef_core_fst_of_conv ops fr _ state ekp (not_le.mp h)

theorem gps_dtsv_none_of_nonconv (ops : Ops α) (fr : NavDataFrame α)
    (dt dtsv0 : α)
    (h : 1000 ≤ (kloop ops.sin (gps_Mk0 ops fr (dtwrap dt)) (fr.data__ 8)).1) :
    gps_dtsv ops fr dt dtsv0 none = (1, dtsv0) := by
  rw [gps_dtsv]
  simp only [if_pos h]

theorem gps_dtsv_none_of_conv (ops : Ops α) (fr : NavDataFrame α)
    (dt dtsv0 : α)
    (h : (kloop ops.sin (gps_Mk0 ops fr (dtwrap dt)) (fr.data__ 8)).1 < 1000) :
    gps_dtsv ops fr dt dtsv0 none =
      (0, gps_bias ops fr (dtwrap dt)
        (kloop ops.sin (gps_Mk0 ops fr (dtwrap dt)) (fr.data__ 8)).2) := by
  rw [gps_dtsv]
  simp only [if_neg (not_le.mpr h)]

theorem gps_dtsv_some_eq (ops : Ops α) (fr : NavDataFrame α) (dt dtsv0 e0 : α) :
    gps_dtsv ops fr dt dtsv0 (some e0) =
      (0, gps_bias ops fr (dtwrap dt) e0) := rfl

theorem gps_dtsv_fst_cases (ops : Ops α) (fr : NavDataFrame α)
    (dt dtsv0 : α) :
    (gps_dtsv ops fr dt dtsv0 none).1 = 0 ∨
      (gps_dtsv ops fr dt dtsv0 none).1 = 1 := by
  by_cases h : 1000 ≤ (kloop ops.sin (gps_Mk0 ops fr (dtwrap dt))
      (fr.data__ 8)).1
  · right
    rw [gps_dtsv_none_of_nonconv ops fr dt dtsv0 h]
  · left
    rw [gps_dtsv_none_of_conv ops fr dt dtsv0 (not_le.mp h)]

theorem LIMIT_pos : (0 : α) < LIMIT := by
  rw [LIMIT]
  positivity

theorem kchk_zero_iff (sinf : α → α) (M e : α) :
    kchk sinf M e 0 ↔ |M| ≤ LIMIT := by
  unfold kchk
  simp [kseq, kprev]

/-- With eccentricity `0` the loop returns the mean anomaly after at most one
executed body, whatever the sine interpretation. -/
theorem kloop_e_zero (sinf : α → α) (M : α) :
    (kloop sinf M 0).1 ≤ 1 ∧ (kloop sinf M 0).2 = M := by
  by_cases h : |M| ≤ LIMIT
  · have h0 : kchk sinf M 0 0 := (kchk_zero_iff sinf M 0).mpr h
    have := kloop_eq_of_first sinf M 0 0 (by omega) h0
      (fun j hj => absurd hj (Nat.not_lt_zero j))
    rw [this]
    exact ⟨by omega, rfl⟩
  · have hs1 : kseq sinf M 0 1 = M := by simp [kseq]
    have h1 : kchk sinf M 0 1 := by
      unfold kchk
      rw [hs1]
      show |M - kseq sinf M 0 0| ≤ LIMIT
      show |M - M| ≤ LIMIT
      rw [sub_self, abs_zero]
      exact le_of_lt LIMIT_pos
    have hmin : ∀ j, j < 1 → ¬ kchk sinf M 0 j := by
      intro j hj
      interval_cases j
      rw [kchk_zero_iff]
      exact h
    have := kloop_eq_of_first sinf M 0 1 (by omega) h1 hmin
    rw [this, hs1]
    exact ⟨le_refl 1, rfl⟩

/-! Concrete records used to instantiate theorems with hypotheses, and to
refute over-general claims.  All of them put `data__[10] = sqrt(A) = 1` so
that no division by zero occurs anywhere on the evaluated path (mirroring
finite IEEE arithmetic in the source). -/

/-- All-zero initial content for the three-cell state array of a caller. -/
def st0Q : Fin 3 → ℚ := fun _ => 0

/-- Record (over `ℚ`, used with `qOps`) on which the Kepler loop never meets
its tolerance: `M0 = 1`, `e = 1`, `sqrt(A) = 1`, so with the stand-in sine
`id` the iterates are `1, 2, 3, …` and every successive difference is `1`. -/
def frF : NavDataFrame ℚ :=
  ⟨fun j => if j = 6 then 1 else if j = 8 then 1 else if j = 10 then 1 else 0⟩

theorem frF_kseq (n : ℕ) : kseq qOps.sin 1 1 n = n + 1 := by
  induction n with
  | zero =>
      show (1 : ℚ) = (0 : ℕ) + 1
      norm_num
  | succ n ih =>
      rw [kseq, ih]
      show ((n : ℚ) + 1) * 1 + 1 = (n + 1 : ℕ) + 1
      push_cast
      ring

theorem frF_not_kchk (k : ℕ) : ¬ kchk qOps.sin 1 1 k := by
  cases k with
  | zero =>
      rw [kchk_zero_iff]
      norm_num [LIMIT]
  | succ k =>
      unfold kchk
      rw [frF_kseq (k + 1)]
      show ¬ |((k + 1 : ℕ) : ℚ) + 1 - kseq qOps.sin 1 1 k| ≤ LIMIT
      rw [frF_kseq k]
      have : ((k + 1 : ℕ) : ℚ) + 1 - ((k : ℚ) + 1) = 1 := by
        push_cast
        ring
      rw [this]
      norm_num [LIMIT]

theorem frF_data6 : frF.data__ 6 = 1 := by decide
theorem frF_data8 : frF.data__ 8 = 1 := by decide

theorem frF_Mk : gps_Mk qOps frF 0 0 = 1 := by
  rw [gps_Mk, gps_tk, gps_Mk0, frF_data6]
  ring

/-- On `frF` with the `ℚ` stand-ins, `gps_ecef` fails to converge. -/
theorem frF_ecef_status : (gps_ecef qOps frF 0 0 st0Q none).1 = 1 := by
  rw [gps_ecef_fst_eq_one_iff]
  intro k _
  rw [frF_Mk, frF_data8]
  exact frF_not_kchk k

/-- On `frF` with the `ℚ` stand-ins, `gps_dtsv` (without a supplied anomaly)
fails to converge as well. -/
theorem frF_dtsv_status : (gps_dtsv qOps frF 0 0 none).1 = 1 := by
  have hw : dtwrap (0 : ℚ) = 0 := by norm_num [dtwrap]
  have hM : gps_Mk0 qOps frF (dtwrap (0 : ℚ)) = 1 := by
    rw [hw, gps_Mk0, frF_data6]
    ring
  have h : 1000 ≤ (kloop qOps.sin (gps_Mk0 qOps frF (dtwrap (0:ℚ)))
      (frF.data__ 8)).1 := by
    rw [hM, frF_data8, kloop_nonconv_iff]
    intro k _
    exact frF_not_kchk k
  rw [gps_dtsv_none_of_nonconv qOps frF 0 0 h]

/-! Real-number facts about the true-anomaly step and the `acos`
recomputation of the eccentric anomaly. -/

theorem gps_vk_real (e E : ℝ) :
    gps_vk realOps e E = Complex.arg
      ⟨(Real.cos E - e) / (1 - e * Real.cos E),
       (Real.sqrt (1 - e * e) * Real.sin E) / (1 - e * Real.cos E)⟩ := rfl

theorem gps_vk_denom_pos (e E : ℝ) (he0 : 0 ≤ e) (he1 : e < 1) :
    0 < 1 - e * Real.cos E := by
  nlinarith [Real.cos_le_one E, Real.neg_one_le_cos E]

/-- The pair fed to `atan2` in `gps_ecef` lies on the unit circle. -/
theorem gps_vk_unit (e E : ℝ) (he0 : 0 ≤ e) (he1 : e < 1) :
    ((Real.cos E - e) / (1 - e * Real.cos E)) ^ 2 +
      ((Real.sqrt (1 - e * e) * Real.sin E) / (1 - e * Real.cos E)) ^ 2 = 1 := by
  have hd := gps_vk_denom_pos e E he0 he1
  have hsq : Real.sqrt (1 - e * e) ^ 2 = 1 - e * e :=
    Real.sq_sqrt (by nlinarith)
  have hpy : Real.sin E ^ 2 + Real.cos E ^ 2 = 1 := Real.sin_sq_add_cos_sq E
  rw [div_pow, div_pow, mul_pow, hsq, div_add_div_same, div_eq_one_iff_eq
    (by positivity)]
  nlinarith [hpy]

theorem cos_gps_vk (e E : ℝ) (he0 : 0 ≤ e) (he1 : e < 1) :
    Real.cos (gps_vk realOps e E) =
      (Real.cos E - e) / (1 - e * Real.cos E) := by
  rw [gps_vk_real]
  have hu := gps_vk_unit e E he0 he1
  have habs : Complex.abs
      ⟨(Real.cos E - e) / (1 - e * Real.cos E),
       (Real.sqrt (1 - e * e) * Real.sin E) / (1 - e * Real.cos E)⟩ = 1 := by
    rw [Complex.abs_apply, Complex.normSq_mk]
    have : ((Real.cos E - e) / (1 - e * Real.cos E)) *
          ((Real.cos E - e) / (1 - e * Real.cos E)) +
        ((Real.sqrt (1 - e * e) * Real.sin E) / (1 - e * Real.cos E)) *
          ((Real.sqrt (1 - e * e) * Real.sin E) / (1 - e * Real.cos E)) = 1 := by
      nlinarith [hu]
    rw [this, Real.sqrt_one]
  have hz : (⟨(Real.cos E - e) / (1 - e * Real.cos E),
      (Real.sqrt (1 - e * e) * Real.sin E) / (1 - e * Real.cos E)⟩ : ℂ) ≠ 0 := by
    intro h
    rw [h] at habs
    simp at habs
  rw [Complex.cos_arg hz, habs, div_one]

/-- Main algebraic fact behind claim C4: for `e ∈ [0,1)` and an input
anomaly `E ∈ [0, π]`, the `acos` reconfirmation applied to the true anomaly
recovers `E`. -/
theorem gps_EkRe_gps_vk (e E : ℝ) (he0 : 0 ≤ e) (he1 : e < 1)
    (hE0 : 0 ≤ E) (hEpi : E ≤ Real.pi) :
    gps_EkRe realOps e (gps_vk realOps e E) = E := by
  have hd := gps_vk_denom_pos e E he0 he1
  have hc := cos_gps_vk e E he0 he1
  have h1e : (0 : ℝ) < 1 - e * e := by nlinarith
  show Real.arccos ((e + Real.cos (gps_vk realOps e E)) /
      (1 + e * Real.cos (gps_vk realOps e E))) = E
  rw [hc]
  have harg : (e + (Real.cos E - e) / (1 - e * Real.cos E)) /
      (1 + e * ((Real.cos E - e) / (1 - e * Real.cos E))) = Real.cos E := by
    rw [div_eq_iff]
    · field_simp
      ring
    · have hsum : 1 + e * ((Real.cos E - e) / (1 - e * Real.cos E)) =
          (1 - e * e) / (1 - e * Real.cos E) := by
        field_simp
        ring
      rw [hsum]
      positivity
  rw [harg]
  exact Real.arccos_cos hE0 hEpi

/-- With eccentricity `0` the `atan2` step reduces to the argument of
`cos E + i sin E`. -/
theorem gps_vk_zero (E : ℝ) :
    gps_vk realOps 0 E = Complex.arg ⟨Real.cos E, Real.sin E⟩ := by
  rw [gps_vk_real]
  norm_num [Real.sqrt_one]

theorem arg_mk_cos_sin (θ : ℝ) (h1 : -Real.pi < θ) (h2 : θ ≤ Real.pi) :
    Complex.arg ⟨Real.cos θ, Real.sin θ⟩ = θ := by
  rw [Complex.mk_eq_add_mul_I, Complex.ofReal_cos, Complex.ofReal_sin]
  exact Complex.arg_cos_add_sin_mul_I ⟨h1, h2⟩

theorem arg_mk_cos_sin_mod (θ : ℝ) :
    ∃ n : ℤ, Complex.arg ⟨Real.cos θ, Real.sin θ⟩ = θ - 2 * Real.pi * n := by
  refine ⟨-⌊(Real.pi - θ) / (2 * Real.pi)⌋, ?_⟩
  have h := Complex.arg_cos_add_sin_mul_I_sub θ
  rw [Complex.mk_eq_add_mul_I]
  push_cast
  linarith

/-- All-zero initial content for a real-valued state array. -/
def st0R : Fin 3 → ℝ := fun _ => 0

/-- Real-valued record with `sqrt(A) = 1` and all other fields zero. -/
def frZ : NavDataFrame ℝ := ⟨fun j => if j = 10 then 1 else 0⟩

/-- Record over `ℚ` with `M0 = 1`, `e = 0`, `sqrt(A) = 1`: the loop performs
exactly one body execution and stops. -/
def frC2 : NavDataFrame ℚ :=
  ⟨fun j => if j = 6 then 1 else if j = 10 then 1 else 0⟩

/-- C1: the spec requires the week wraparound of `tk` to be applied in every
build, but `gps_ecef` computes `tk = t_sec - toe_sec` and, in the release
build, uses it unwrapped (the wraparound sits inside `#ifdef DEBUG`); the
debug build rejects an out-of-window `tk` with status `-1` before its (dead)
wraparound statements.  Evaluation at the failing input
`toe_sec = 0, t_sec = 400000`: the `tk` fed to the formulae is `400000`,
outside `(-302400, 302400]`, and the debug build errors out. -/
theorem C1_code_behavior :
    gps_tk (0 : ℝ) 400000 = 400000 ∧
    ¬ (-302400 < gps_tk (0 : ℝ) 400000 ∧ gps_tk (0 : ℝ) 400000 ≤ 302400) ∧
    gps_ecef_debug realOps frZ 0 400000 st0R none = (-1, st0R, none) ∧
    (∀ (ops : Ops α) (fr : NavDataFrame α) (toe_sec t_sec : α) (st : Fin 3 → α)
      (ekp : Option α), gps_ecef ops fr toe_sec t_sec st ekp =
        gps_ecef_core ops fr (gps_tk toe_sec t_sec) st ekp) := by
  refine ⟨by norm_num [gps_tk], by norm_num [gps_tk], ?_, fun _ _ _ _ _ _ => rfl⟩
  rw [gps_ecef_debug]
  rw [if_pos]
  right
  norm_num [gps_tk]

/-- C2 (amended): the Kepler loop embedded in `gps_ecef` iterates
`E_{i+1} = M + e*sin(E_i)` from the seed `E_0 = M`, but its first tolerance
test compares the seed against the dummy initial value `0` rather than a
pair of successive iterates, and the `i >= 1000` error test fires one update
early: the routine returns status 1 iff none of the tests with index
`0..999` (the dummy test plus the tests after updates `1..999`) meets the
`1e-14` tolerance, and otherwise the loop stops at the first passing test,
returning the iterate held there. -/
theorem C2_kepler_loop_characterization (ops : Ops α) (fr : NavDataFrame α)
    (toe_sec t_sec : α) (state : Fin 3 → α) (ekp : Option α) :
    ((gps_ecef ops fr toe_sec t_sec state ekp).1 = 1 ↔
      ∀ k, k < 1000 →
        ¬ kchk ops.sin (gps_Mk ops fr toe_sec t_sec) (fr.data__ 8) k) ∧
    (∀ k, k ≤ 1001 →
      kchk ops.sin (gps_Mk ops fr toe_sec t_sec) (fr.data__ 8) k →
      (∀ j, j < k →
        ¬ kchk ops.sin (gps_Mk ops fr toe_sec t_sec) (fr.data__ 8) j) →
      kloop ops.sin (gps_Mk ops fr toe_sec t_sec) (fr.data__ 8) =
        (k, kseq ops.sin (gps_Mk ops fr toe_sec t_sec) (fr.data__ 8) k)) :=
  ⟨gps_ecef_fst_eq_one_iff ops fr toe_sec t_sec state ekp,
   fun k hk hc hmin => kloop_eq_of_first _ _ _ k hk hc hmin⟩

/-- Witness for C2 (amended), at the `ℚ` instance with record `frC2`
(`M = 1`, `e = 0`): the test after the first update passes (the dummy test
does not), and the loop indeed exits there with iterate `kseq 1`. -/
theorem C2_witness :
    kloop qOps.sin (gps_Mk qOps frC2 0 0) (frC2.data__ 8) =
      (1, kseq qOps.sin (gps_Mk qOps frC2 0 0) (frC2.data__ 8) 1) := by
  have hM : gps_Mk qOps frC2 0 0 = 1 := by
    rw [gps_Mk, gps_tk, gps_Mk0]
    have h6 : frC2.data__ 6 = 1 := by decide
    rw [h6]
    ring
  have he : frC2.data__ 8 = 0 := by decide
  refine (C2_kepler_loop_characterization qOps frC2 0 0 st0Q none).2 1
    (by omega) ?_ ?_
  · rw [hM, he]
    unfold kchk
    have h1 : kseq qOps.sin 1 0 1 = 1 := by simp [kseq]
    rw [h1]
    show |(1 : ℚ) - kseq qOps.sin 1 0 0| ≤ LIMIT
    show |(1 : ℚ) - 1| ≤ LIMIT
    rw [sub_self, abs_zero]
    exact le_of_lt LIMIT_pos
  · intro j hj
    interval_cases j
    rw [hM, he, kchk_zero_iff]
    norm_num [LIMIT]

/-- Counterexample to C2 as stated: at `M = 1e-14`, `e = 0.9` the embedded
loop stops at the dummy initial test after performing zero iterations and
returns the seed `M`, whereas the iteration described by the claim performs
its first step and returns `M + 0.9*sin M`, a strictly larger value. -/
theorem C2_counterexample :
    (kloop Real.sin (LIMIT : ℝ) (9 / 10)).1 = 0 ∧
    (kloop Real.sin (LIMIT : ℝ) (9 / 10)).2 = LIMIT ∧
    specKepler Real.sin (LIMIT : ℝ) (9 / 10) =
      some (LIMIT + 9 / 10 * Real.sin LIMIT) ∧
    (LIMIT : ℝ) + 9 / 10 * Real.sin LIMIT ≠ LIMIT := by
  have hL : (0 : ℝ) < LIMIT := LIMIT_pos
  have hL3 : (LIMIT : ℝ) < 3 := by norm_num [LIMIT]
  have hsin_pos : 0 < Real.sin (LIMIT : ℝ) :=
    Real.sin_pos_of_pos_of_lt_pi hL (lt_trans hL3 Real.pi_gt_three)
  have hsin_lt : Real.sin (LIMIT : ℝ) < LIMIT := Real.sin_lt hL
  have hk0 : kchk Real.sin (LIMIT : ℝ) (9 / 10) 0 :=
    (kchk_zero_iff _ _ _).mpr (le_of_eq (abs_of_pos hL))
  have hkl := kloop_eq_of_first Real.sin (LIMIT : ℝ) (9 / 10) 0 (by omega) hk0
    (fun j hj => absurd hj (Nat.not_lt_zero j))
  refine ⟨by rw [hkl], by rw [hkl]; rfl, ?_, ?_⟩
  · show (if |(LIMIT : ℝ) + 9 / 10 * Real.sin LIMIT - LIMIT| ≤ LIMIT then
        some ((LIMIT : ℝ) + 9 / 10 * Real.sin LIMIT)
      else specKeplerAux Real.sin LIMIT (9 / 10) 999
        ((LIMIT : ℝ) + 9 / 10 * Real.sin LIMIT)) =
      some ((LIMIT : ℝ) + 9 / 10 * Real.sin LIMIT)
    rw [if_pos]
    rw [add_sub_cancel_left, abs_of_pos (by positivity)]
    nlinarith
  · intro h
    nlinarith

/-- With mean anomaly `0` the loop stops at the dummy initial test. -/
theorem kloop_M_zero (sinf : α → α) (e : α) : kloop sinf 0 e = (0, 0) := by
  have h0 : kchk sinf 0 e 0 := (kchk_zero_iff _ _ _).mpr
    (by rw [abs_zero]; exact le_of_lt LIMIT_pos)
  have h := kloop_eq_of_first sinf 0 e 0 (by omega) h0
    (fun j hj => absurd hj (Nat.not_lt_zero j))
  rw [h]
  rfl

theorem dtwrap_in_window (dt : α) (h1 : -302400 < dt) (h2 : dt ≤ 302400) :
    dtwrap dt = dt := by
  rw [dtwrap]
  simp only [if_neg (not_lt.mpr h2), if_neg (not_lt.mpr (le_of_lt h1))]

/-- Record over `ℚ` for the clock-bias witness: `a0 = 5`, `a1 = 7`,
`a2 = 11`, `M0 = 0`, `e = 3`, `sqrt(A) = 1`. -/
def frW3 : NavDataFrame ℚ :=
  ⟨fun j => if j = 0 then 5 else if j = 1 then 7 else if j = 2 then 11
    else if j = 8 then 3 else if j = 10 then 1 else 0⟩

/-- C3: on success, `gps_dtsv` returns exactly
`a0 + a1*dt + a2*dt^2 + F_CLOCK*e*sqrt(A)*sin(Ek)` with `dt` the
week-wrapped elapsed time and `Ek` the iterated eccentric anomaly, and it
never reads the TGD field `data__[25]`. -/
theorem C3_clock_bias_formula (ops : Ops α) (fr : NavDataFrame α)
    (dt dtsv0 : α) (h : (gps_dtsv ops fr dt dtsv0 none).1 = 0) :
    (gps_dtsv ops fr dt dtsv0 none).2 =
      fr.data__ 0 + fr.data__ 1 * dtwrap dt + fr.data__ 2 * dtwrap dt ^ 2 +
        F_CLOCK * (fr.data__ 8 * fr.data__ 10 *
          ops.sin (kloop ops.sin (gps_Mk0 ops fr (dtwrap dt))
            (fr.data__ 8)).2) ∧
    ∀ v : α, gps_dtsv ops (fr.setData 25 v) dt dtsv0 none =
      gps_dtsv ops fr dt dtsv0 none := by
  constructor
  · by_cases hc : 1000 ≤ (kloop ops.sin (gps_Mk0 ops fr (dtwrap dt))
        (fr.data__ 8)).1
    · rw [gps_dtsv_none_of_nonconv ops fr dt dtsv0 hc] at h
      exact absurd h (by norm_num)
    · rw [gps_dtsv_none_of_conv ops fr dt dtsv0 (not_le.mp hc)]
      rw [gps_bias]
      ring
  · intro v
    have hup : ∀ j : Fin 31, j ≠ 25 →
        (fr.setData 25 v).data__ j = fr.data__ j := by
      intro j hj
      show Function.update fr.data__ 25 v j = fr.data__ j
      exact Function.update_noteq hj v fr.data__
    simp only [gps_dtsv, gps_Mk0, gps_n, gps_A, gps_bias]
    rw [hup 0 (by decide), hup 1 (by decide), hup 2 (by decide),
      hup 5 (by decide), hup 6 (by decide), hup 8 (by decide),
      hup 10 (by decide)]

/-- Witness for C3 at the `ℚ` instance, record `frW3`, `dt = 0`: the success
hypothesis holds and the formula evaluates. -/
theorem C3_witness :
    (gps_dtsv qOps frW3 0 0 none).2 =
      frW3.data__ 0 + frW3.data__ 1 * dtwrap 0 +
        frW3.data__ 2 * dtwrap (0 : ℚ) ^ 2 +
        F_CLOCK * (frW3.data__ 8 * frW3.data__ 10 *
          qOps.sin (kloop qOps.sin (gps_Mk0 qOps frW3 (dtwrap 0))
            (frW3.data__ 8)).2) := by
  have hw : dtwrap (0 : ℚ) = 0 := dtwrap_in_window 0 (by norm_num) (by norm_num)
  have hM : gps_Mk0 qOps frW3 (dtwrap (0 : ℚ)) = 0 := by
    rw [hw, gps_Mk0]
    have h6 : frW3.data__ 6 = 0 := by decide
    rw [h6]
    ring
  have hstat : (gps_dtsv qOps frW3 0 0 none).1 = 0 := by
    have hconv : (kloop qOps.sin (gps_Mk0 qOps frW3 (dtwrap (0 : ℚ)))
        (frW3.data__ 8)).1 < 1000 := by
      rw [hM, kloop_M_zero]
      omega
    rw [gps_dtsv_none_of_conv qOps frW3 0 0 hconv]
  exact (C3_clock_bias_formula qOps frW3 0 0 hstat).1

/-- C4 (amended): the `acos` reconfirmation of the eccentric anomaly from
the true anomaly agrees with the iterated eccentric anomaly whenever the
latter lies in `[0, π]` (for `e ∈ [0,1)` and a converged iteration); outside
that range `acos` returns the representative of the cosine in `[0, π]`, not
the iterated value. -/
theorem C4_EkRe_consistency (M e : ℝ) (he0 : 0 ≤ e) (he1 : e < 1)
    (hconv : (kloop Real.sin M e).1 < 1000)
    (hE0 : 0 ≤ (kloop Real.sin M e).2)
    (hEpi : (kloop Real.sin M e).2 ≤ Real.pi) :
    gps_EkRe realOps e (gps_vk realOps e (kloop Real.sin M e).2) =
      (kloop Real.sin M e).2 :=
  gps_EkRe_gps_vk e _ he0 he1 hE0 hEpi

/-- Witness for C4 at `M = 1`, `e = 0`: the iteration converges to `Ek = 1`,
which lies in `[0, π]`, and the reconfirmation returns it. -/
theorem C4_witness :
    gps_EkRe realOps 0 (gps_vk realOps 0 (kloop Real.sin 1 0).2) =
      (kloop Real.sin 1 0).2 := by
  have hk := kloop_e_zero Real.sin (1 : ℝ)
  exact C4_EkRe_consistency 1 0 le_rfl (by norm_num)
    (lt_of_le_of_lt hk.1 (by norm_num))
    (by rw [hk.2]; norm_num)
    (by rw [hk.2]; linarith [Real.pi_gt_three])

/-- Counterexample to C4 as stated: at `M = -1`, `e = 0` the iteration
converges to `Ek = -1`, but the `acos` recomputation returns `1`. -/
theorem C4_counterexample :
    (kloop Real.sin (-1 : ℝ) 0).1 < 1000 ∧
    (kloop Real.sin (-1 : ℝ) 0).2 = -1 ∧
    gps_EkRe realOps 0 (gps_vk realOps 0 (kloop Real.sin (-1 : ℝ) 0).2) = 1 ∧
    (1 : ℝ) ≠ -1 := by
  have hk := kloop_e_zero Real.sin (-1 : ℝ)
  refine ⟨lt_of_le_of_lt hk.1 (by norm_num), hk.2, ?_, by norm_num⟩
  rw [hk.2, gps_vk_zero,
    arg_mk_cos_sin (-1) (by linarith [Real.pi_gt_three])
      (by linarith [Real.pi_pos])]
  show Real.arccos ((0 + Real.cos (-1)) / (1 + 0 * Real.cos (-1))) = 1
  rw [zero_add, zero_mul, add_zero, div_one, Real.cos_neg]
  exact Real.arccos_cos (by norm_num) (by linarith [Real.pi_gt_three])

/-- C5 (amended): for `dt` strictly outside `(-302400, 302400]` but within
`(-907200, 907200]`, the wrap of `gps_dtsv` moves `dt` into the window and
changes it by exactly one week; inputs farther out receive the same single
one-week correction, which cannot reach the window (see the
counterexample), and `dt = -302400` is left untouched. -/
theorem C5_dtwrap_single_week (dt : α) (hlow : -907200 < dt)
    (hhigh : dt ≤ 907200) (hout : dt < -302400 ∨ 302400 < dt) :
    (-302400 < dtwrap dt ∧ dtwrap dt ≤ 302400) ∧
    (dtwrap dt = dt - 604800 ∨ dtwrap dt = dt + 604800) := by
  simp only [dtwrap]
  rcases hout with h | h
  · rw [if_neg (not_lt.mpr (le_of_lt (lt_trans h (by norm_num)))), if_pos h]
    exact ⟨⟨by linarith, by linarith⟩, Or.inr rfl⟩
  · rw [if_pos h, if_neg (not_lt.mpr (by linarith))]
    exact ⟨⟨by linarith, by linarith⟩, Or.inl rfl⟩

/-- Witness for C5 (amended) at `dt = 400000`: the wrapped value is inside
the window and one week below the input. -/
theorem C5_witness :
    (-302400 < dtwrap (400000 : ℚ) ∧ dtwrap (400000 : ℚ) ≤ 302400) ∧
    (dtwrap (400000 : ℚ) = 400000 - 604800 ∨
      dtwrap (400000 : ℚ) = 400000 + 604800) :=
  C5_dtwrap_single_week 400000 (by norm_num) (by norm_num)
    (Or.inr (by norm_num))

/-- Counterexample to C5 as stated: `dt = 1000000` is outside
`(-302400, 302400]`, yet the wrapped value `395200` is still outside the
window. -/
theorem C5_counterexample :
    (302400 : ℝ) < 1000000 ∧ dtwrap (1000000 : ℝ) = 395200 ∧
    ¬ (-302400 < dtwrap (1000000 : ℝ) ∧ dtwrap (1000000 : ℝ) ≤ 302400) := by
  have hw : dtwrap (1000000 : ℝ) = 395200 := by
    simp only [dtwrap]
    rw [if_pos (by norm_num : (302400 : ℝ) < 1000000),
      if_neg (by norm_num : ¬(1000000 - 604800 : ℝ) < -302400)]
    norm_num
  exact ⟨by norm_num, hw, by rw [hw]; norm_num⟩

/-- Real-valued record with eccentricity `1`, `sqrt(A) = 1`, `M0 = 0`. -/
def frE1 : NavDataFrame ℝ :=
  ⟨fun j => if j = 8 then 1 else if j = 10 then 1 else 0⟩

/-- C6 (amended): for a record whose eccentricity field is `1` or more, both
routines still terminate with status `0` or `1` (never crash or hang, the
iteration being capped), but a `NonConvergence` status is not guaranteed
(see the counterexample). -/
theorem C6_high_ecc_no_hang (ops : Ops α) (fr : NavDataFrame α)
    (he : 1 ≤ fr.data__ 8) (toe_sec t_sec : α) (st : Fin 3 → α)
    (ekp : Option α) (dt dtsv0 : α) :
    ((gps_ecef ops fr toe_sec t_sec st ekp).1 = 0 ∨
      (gps_ecef ops fr toe_sec t_sec st ekp).1 = 1) ∧
    ((gps_dtsv ops fr dt dtsv0 none).1 = 0 ∨
      (gps_dtsv ops fr dt dtsv0 none).1 = 1) :=
  ⟨gps_ecef_fst_cases ops fr toe_sec t_sec st ekp,
   gps_dtsv_fst_cases ops fr dt dtsv0⟩

/-- Witness for C6 (amended) on the eccentricity-1 record `frE1`. -/
theorem C6_witness :
    ((gps_ecef realOps frE1 0 0 st0R none).1 = 0 ∨
      (gps_ecef realOps frE1 0 0 st0R none).1 = 1) ∧
    ((gps_dtsv realOps frE1 0 0 none).1 = 0 ∨
      (gps_dtsv realOps frE1 0 0 none).1 = 1) :=
  C6_high_ecc_no_hang realOps frE1 (le_of_eq rfl.symm) 0 0 st0R none 0 0

/-- Counterexample to C6 as stated: on `frE1` (eccentricity `1`) at the
reference epoch both routines return success (`0`), not `NonConvergence`:
the mean anomaly is `0` and the loop stops at its dummy initial test. -/
theorem C6_counterexample :
    (1 : ℝ) ≤ frE1.data__ 8 ∧
    (gps_ecef realOps frE1 0 0 st0R none).1 = 0 ∧
    (gps_dtsv realOps frE1 0 0 none).1 = 0 := by
  have h8 : frE1.data__ 8 = 1 := rfl
  have h6 : frE1.data__ 6 = 0 := rfl
  have hMk : gps_Mk0 realOps frE1 (gps_tk (0 : ℝ) 0) = 0 := by
    rw [gps_tk, gps_Mk0, h6]
    ring
  have hconv : (kloop Real.sin (gps_Mk0 realOps frE1 (gps_tk (0 : ℝ) 0))
      (frE1.data__ 8)).1 < 1000 := by
    rw [hMk, kloop_M_zero]
    omega
  have hw : dtwrap (0 : ℝ) = 0 :=
    dtwrap_in_window 0 (by norm_num) (by norm_num)
  have hMk2 : gps_Mk0 realOps frE1 (dtwrap (0 : ℝ)) = 0 := by
    rw [hw, gps_Mk0, h6]
    ring
  have hconv2 : (kloop Real.sin (gps_Mk0 realOps frE1 (dtwrap (0 : ℝ)))
      (frE1.data__ 8)).1 < 1000 := by
    rw [hMk2, kloop_M_zero]
    omega
  refine ⟨le_of_eq h8.symm, ?_, ?_⟩
  · rw [gps_ecef]
    exact gps_ecef_core_fst_of_conv realOps frE1 _ st0R none hconv
  · rw [gps_dtsv_none_of_conv realOps frE1 0 0 hconv2]

/-- C7 (amended): with eccentricity `0` the solved eccentric anomaly equals
the mean anomaly `Mk` exactly and the solve succeeds; the true anomaly
equals `Mk` minus the integer multiple of `2π` that lands in `(-π, π]`, and
equals `Mk` exactly whenever `Mk ∈ (-π, π]`. -/
theorem C7_circular_orbit (fr : NavDataFrame ℝ) (he : fr.data__ 8 = 0)
    (toe_sec t_sec : ℝ) :
    (kloop Real.sin (gps_Mk realOps fr toe_sec t_sec) (fr.data__ 8)).2 =
      gps_Mk realOps fr toe_sec t_sec ∧
    (kloop Real.sin (gps_Mk realOps fr toe_sec t_sec) (fr.data__ 8)).1 < 1000 ∧
    (∃ n : ℤ, gps_vk realOps (fr.data__ 8)
        ((kloop Real.sin (gps_Mk realOps fr toe_sec t_sec)
          (fr.data__ 8)).2) =
      gps_Mk realOps fr toe_sec t_sec - 2 * Real.pi * n) ∧
    (-Real.pi < gps_Mk realOps fr toe_sec t_sec →
      gps_Mk realOps fr toe_sec t_sec ≤ Real.pi →
      gps_vk realOps (fr.data__ 8)
          ((kloop Real.sin (gps_Mk realOps fr toe_sec t_sec)
            (fr.data__ 8)).2) =
        gps_Mk realOps fr toe_sec t_sec) := by
  rw [he]
  have hk := kloop_e_zero Real.sin (gps_Mk realOps fr toe_sec t_sec)
  refine ⟨hk.2, lt_of_le_of_lt hk.1 (by norm_num), ?_, ?_⟩
  · rw [hk.2, gps_vk_zero]
    exact arg_mk_cos_sin_mod (gps_Mk realOps fr toe_sec t_sec)
  · intro h1 h2
    rw [hk.2, gps_vk_zero]
    exact arg_mk_cos_sin (gps_Mk realOps fr toe_sec t_sec) h1 h2

/-- Real-valued record with `M0 = 1`, eccentricity `0`, `sqrt(A) = 1`. -/
def fr7a : NavDataFrame ℝ :=
  ⟨fun j => if j = 6 then 1 else if j = 10 then 1 else 0⟩

/-- Witness for C7 (amended) on `fr7a` at the reference epoch. -/
theorem C7_witness :
    (kloop Real.sin (gps_Mk realOps fr7a 0 0) (fr7a.data__ 8)).2 =
      gps_Mk realOps fr7a 0 0 :=
  (C7_circular_orbit fr7a rfl 0 0).1

/-- Real-valued record with `M0 = 2π`, eccentricity `0`, `sqrt(A) = 1`. -/
noncomputable def fr7c : NavDataFrame ℝ :=
  ⟨fun j => if j = 6 then 2 * Real.pi else if j = 10 then 1 else 0⟩

/-- Counterexample to C7 as stated: on the eccentricity-0 record `fr7c` the
mean anomaly is `2π` and the solved eccentric anomaly is `2π`, but the true
anomaly computed from it is `0`, not the mean anomaly. -/
theorem C7_counterexample :
    fr7c.data__ 8 = 0 ∧
    gps_Mk realOps fr7c 0 0 = 2 * Real.pi ∧
    (kloop Real.sin (gps_Mk realOps fr7c 0 0) (fr7c.data__ 8)).2 =
      2 * Real.pi ∧
    gps_vk realOps (fr7c.data__ 8)
        ((kloop Real.sin (gps_Mk realOps fr7c 0 0) (fr7c.data__ 8)).2) = 0 ∧
    (0 : ℝ) ≠ 2 * Real.pi := by
  have h8 : fr7c.data__ 8 = 0 := rfl
  have h6 : fr7c.data__ 6 = 2 * Real.pi := rfl
  have hM : gps_Mk realOps fr7c 0 0 = 2 * Real.pi := by
    rw [gps_Mk, gps_tk, gps_Mk0, h6]
    ring
  have hk := kloop_e_zero Real.sin (2 * Real.pi)
  refine ⟨h8, hM, ?_, ?_, ne_of_lt Real.two_pi_pos⟩
  · rw [hM, h8]
    exact hk.2
  · rw [hM, h8, hk.2, gps_vk_zero, Real.cos_two_pi, Real.sin_two_pi]
    show Complex.arg ⟨1, 0⟩ = 0
    rw [Complex.mk_eq_add_mul_I]
    simp

theorem gps_dtsv_none_fail_snd (ops : Ops α) (fr : NavDataFrame α)
    (dt dtsv0 : α) (h : (gps_dtsv ops fr dt dtsv0 none).1 ≠ 0) :
    (gps_dtsv ops fr dt dtsv0 none).2 = dtsv0 := by
  by_cases hc : 1000 ≤ (kloop ops.sin (gps_Mk0 ops fr (dtwrap dt))
      (fr.data__ 8)).1
  · rw [gps_dtsv_none_of_nonconv ops fr dt dtsv0 hc]
  · exact absurd (by rw [gps_dtsv_none_of_conv ops fr dt dtsv0 (not_le.mp hc)])
      h

/-- C8: a non-zero status from the Kepler solve inside `gps_ecef` (or, when
that succeeds, inside `gps_dtsv`) is returned unchanged by
`gps_stateNclock`, which abandons the remaining computation: the clock cell
of the caller keeps its prior value and the state cells keep whatever
`gps_ecef` left (nothing else is written and no retry happens). -/
theorem C8_error_propagation (ops : Ops α) (fr : NavDataFrame α)
    (toe t : Dt α) (dti : α) (st : Fin 3 → α) (dt0 : α) :
    ((gps_ecef ops fr toe.sod (gps_align toe t) st none).1 ≠ 0 →
      gps_stateNclock ops fr toe t dti st dt0 =
        ((gps_ecef ops fr toe.sod (gps_align toe t) st none).1,
         (gps_ecef ops fr toe.sod (gps_align toe t) st none).2.1, dt0)) ∧
    ((gps_ecef ops fr toe.sod (gps_align toe t) st none).1 = 0 →
      (gps_dtsv ops fr dti dt0 none).1 ≠ 0 →
      gps_stateNclock ops fr toe t dti st dt0 =
        ((gps_dtsv ops fr dti dt0 none).1,
         (gps_ecef ops fr toe.sod (gps_align toe t) st none).2.1, dt0)) := by
  constructor
  · intro h
    simp only [gps_stateNclock]
    rw [if_pos h]
  · intro h1 h2
    simp only [gps_stateNclock]
    rw [if_neg (not_not_intro h1), gps_dtsv_none_fail_snd ops fr dti dt0 h2]

/-- Witness for C8 at the `ℚ` instance on the non-converging record `frF`:
the `gps_ecef` solve fails, and `gps_stateNclock` returns that status with
the outputs untouched. -/
theorem C8_witness :
    gps_stateNclock qOps frF ⟨0, 0⟩ ⟨0, 0⟩ 0 st0Q 0 =
      ((gps_ecef qOps frF (Dt.mk 0 0).sod (gps_align ⟨0, 0⟩ ⟨0, 0⟩) st0Q
          none).1,
       (gps_ecef qOps frF (Dt.mk 0 0).sod (gps_align ⟨0, 0⟩ ⟨0, 0⟩) st0Q
          none).2.1, 0) := by
  refine (C8_error_propagation qOps frF ⟨0, 0⟩ ⟨0, 0⟩ 0 st0Q 0).1 ?_
  have ha : gps_align (⟨0, 0⟩ : Dt ℚ) ⟨0, 0⟩ = 0 := by
    simp [gps_align]
  show (gps_ecef qOps frF 0 (gps_align (⟨0, 0⟩ : Dt ℚ) ⟨0, 0⟩) st0Q
      none).1 ≠ 0
  rw [ha, frF_ecef_status]
  norm_num

/-- C9: when `gps_ecef` reports `NonConvergence` it has written neither the
state array of the caller nor the optional `Ek` cell: both still hold their
initial contents. -/
theorem C9_no_write_on_failure (ops : Ops α) (fr : NavDataFrame α)
    (toe_sec t_sec : α) (st : Fin 3 → α) (ekp : Option α)
    (h : (gps_ecef ops fr toe_sec t_sec st ekp).1 ≠ 0) :
    (gps_ecef ops fr toe_sec t_sec st ekp).2.1 = st ∧
    (gps_ecef ops fr toe_sec t_sec st ekp).2.2 = ekp := by
  by_cases hc : 1000 ≤ (kloop ops.sin (gps_Mk0 ops fr (gps_tk toe_sec t_sec))
      (fr.data__ 8)).1
  · rw [gps_ecef, gps_ecef_core_of_nonconv ops fr _ st ekp hc]
    exact ⟨rfl, rfl⟩
  · exact absurd (by
      rw [gps_ecef]
      exact gps_ecef_core_fst_of_conv ops fr _ st ekp (not_le.mp hc)) h

/-- Witness for C9 at the `ℚ` instance on the non-converging record `frF`. -/
theorem C9_witness :
    (gps_ecef qOps frF 0 0 st0Q none).2.1 = st0Q ∧
    (gps_ecef qOps frF 0 0 st0Q none).2.2 = none :=
  C9_no_write_on_failure qOps frF 0 0 st0Q none
    (by rw [frF_ecef_status]; norm_num)

/-- C10: with a supplied eccentric anomaly, `gps_dtsv` always succeeds with
status `0`, the bias is the closed-form `gps_bias` of the wrapped `dt` and
the supplied anomaly (no Kepler solve appears in it), and the mean-anomaly
field `M0 = data__[6]` — read only by the skipped solver path — has no
influence on the result. -/
theorem C10_precomputed_anomaly (ops : Ops α) (fr : NavDataFrame α)
    (dt dtsv0 E0 : α) :
    gps_dtsv ops fr dt dtsv0 (some E0) =
      (0, gps_bias ops fr (dtwrap dt) E0) ∧
    ∀ v : α, gps_dtsv ops (fr.setData 6 v) dt dtsv0 (some E0) =
      gps_dtsv ops fr dt dtsv0 (some E0) := by
  refine ⟨rfl, ?_⟩
  intro v
  have hup : ∀ j : Fin 31, j ≠ 6 →
      (fr.setData 6 v).data__ j = fr.data__ j := by
    intro j hj
    show Function.update fr.data__ 6 v j = fr.data__ j
    exact Function.update_noteq hj v fr.data__
  rw [gps_dtsv_some_eq, gps_dtsv_some_eq]
  simp only [gps_bias]
  rw [hup 0 (by decide), hup 1 (by decide), hup 2 (by decide),
    hup 8 (by decide), hup 10 (by decide)]

end GpsNav
